import Mathlib

/-!
Shallow embedding of the transactional core of the Pixel Money digital wallet
(balance service and ledger service) together with proofs about its behaviour.

The balance service owns individual accounts (`BDI`) and group accounts
(`BDG`); the ledger orchestrator exposes deposit, interbank transfer, group
contribution and P2P transfer endpoints backed by a wide-column event store
(`transactions`, `transactions_by_user`, `idempotency_keys`).

Monetary amounts are modelled as integers (fixed-point minor units), UUIDs as
naturals, timestamps as naturals.  Each ledger operation is embedded as a pure
function from an explicit system state to a response, a successor state, and a
trace of the external calls and event-store writes it issued, in program
order.  Remote responses of the balance service are computed from the state
(faithful composition of the two services); the interbank gateway's response
and a possible balance-service failure on the post-acceptance debit are
explicit parameters, as is the success of the P2P path's final event-store
batch write.
-/

namespace PixelMoney

/-- Association-list lookup for integer balances keyed by a numeric id. -/
def lookupAcct : List (Nat × Int) → Nat → Option Int
  | [], _ => none
  | (a, v) :: rest, k => if a = k then some v else lookupAcct rest k

/-- Association-list update (updates every entry with the given key). -/
def updateAcct : List (Nat × Int) → Nat → Int → List (Nat × Int)
  | [], _, _ => []
  | (a, v0) :: rest, k, v =>
      if a = k then (k, v) :: updateAcct rest k v
      else (a, v0) :: updateAcct rest k v

/-- Phone-directory lookup (auth service `/users/by-phone/{phone}`). -/
def lookupPhone : List (String × Nat) → String → Option Nat
  | [], _ => none
  | (p, u) :: rest, q => if p = q then some u else lookupPhone rest q

/-- Mutable state owned by the balance service: individual account balances
keyed by user id and group balances keyed by group id. -/
structure BalanceState where
  accounts : List (Nat × Int)
  groups : List (Nat × Int)
deriving Repr, DecidableEq

/-- Balance service `POST /balance/check` (`check_funds`): 404 if the account
is missing, 400 if the balance is below the requested amount, else ok.  Never
changes state. -/
def check_funds (st : BalanceState) (user : Nat) (amount : Int) : Except Nat Unit :=
  match lookupAcct st.accounts user with
  | none => .error 404
  | some bal => if bal < amount then .error 400 else .ok ()

/-- Balance service `POST /balance/credit` (`credit_balance`): 404 if the
account is missing, else adds the amount under the row lock. -/
def credit_balance (st : BalanceState) (user : Nat) (amount : Int) :
    Except Nat BalanceState :=
  match lookupAcct st.accounts user with
  | none => .error 404
  | some bal =>
      .ok { st with accounts := updateAcct st.accounts user (bal + amount) }

/-- Balance service `POST /balance/debit` (`debit_balance`): 404 if the
account is missing, 400 (and no state change, the transaction rolls back) if
the balance is below the amount, else subtracts the amount. -/
def debit_balance (st : BalanceState) (user : Nat) (amount : Int) :
    Except Nat BalanceState :=
  match lookupAcct st.accounts user with
  | none => .error 404
  | some bal =>
      if bal < amount then .error 400
      else .ok { st with accounts := updateAcct st.accounts user (bal - amount) }

/-- Balance service `POST /group_balance/credit` (`credit_group_balance`). -/
def credit_group_balance (st : BalanceState) (gid : Nat) (amount : Int) :
    Except Nat BalanceState :=
  match lookupAcct st.groups gid with
  | none => .error 404
  | some bal =>
      .ok { st with groups := updateAcct st.groups gid (bal + amount) }

/-- Balance service `POST /group_balance/debit` (`debit_group_balance`). -/
def debit_group_balance (st : BalanceState) (gid : Nat) (amount : Int) :
    Except Nat BalanceState :=
  match lookupAcct st.groups gid with
  | none => .error 404
  | some bal =>
      if bal < amount then .error 400
      else .ok { st with groups := updateAcct st.groups gid (bal - amount) }

/-- A row of the event store's `transactions` / `transactions_by_user`
tables. -/
structure Tx where
  id : Nat
  user_id : Nat
  source_wallet_type : String
  source_wallet_id : String
  destination_wallet_type : String
  destination_wallet_id : String
  type : String
  amount : Int
  currency : String
  status : String
  created_at : Nat
  updated_at : Nat
  metadata : String
deriving Repr, DecidableEq

/-- Full system state seen by the ledger orchestrator: the balance service's
state, the three event-store tables, and the auth service's phone
directory. -/
structure LedgerState where
  bal : BalanceState
  transactions : List Tx
  transactions_by_user : List Tx
  idempotency_keys : List (Nat × Nat)
  directory : List (String × Nat)
deriving Repr, DecidableEq

/-- HTTP-level outcome of a ledger endpoint: a 2xx body (the transaction
record) or an error status code. -/
inductive Resp where
  | ok (tx : Tx)
  | err (code : Nat)
deriving Repr, DecidableEq

/-- External calls and event-store writes issued by one ledger operation, in
program order. -/
inductive Ev where
  | esInsertPending (txId : Nat)
  | esInsertCompleted (txId : Nat)
  | esUpdateStatus (txId : Nat) (st : String)
  | esBindKey (key txId : Nat)
  | baCheck (user : Nat) (amount : Int)
  | baDebit (user : Nat) (amount : Int)
  | baCredit (user : Nat) (amount : Int)
  | bgCredit (group : Nat) (amount : Int)
  | igSend (txId : Nat)
  | rdLookup (phone : String)
deriving Repr, DecidableEq

/-- Result of one ledger endpoint invocation. -/
structure RunResult where
  resp : Resp
  state : LedgerState
  trace : List Ev
deriving Repr, DecidableEq

/-- Ledger `check_idempotency`: look the key up in `idempotency_keys` and
return the bound transaction id if present. -/
def check_idempotency (st : LedgerState) (key : Nat) : Option Nat :=
  (st.idempotency_keys.find? (fun p => p.1 == key)).map Prod.snd

/-- Ledger `get_transaction_by_id`: point lookup in the id-keyed table. -/
def get_transaction_by_id (st : LedgerState) (txId : Nat) : Option Tx :=
  st.transactions.find? (fun t => t.id == txId)

/-- Event-store `UPDATE transactions SET status, updated_at WHERE id = txId`
(the source updates only the id-keyed table, never `transactions_by_user`). -/
def setStatus (txs : List Tx) (txId : Nat) (s : String) (now : Nat) : List Tx :=
  txs.map (fun t => if t.id = txId then { t with status := s, updated_at := now } else t)

/-- Status classification shared by the interbank transfer's error handler:
400 ↦ FAILED_FUNDS, 404 ↦ FAILED_ACCOUNT, otherwise FAILED_HTTP_(code). -/
def statusForHttp (code : Nat) : String :=
  if code = 400 then "FAILED_FUNDS"
  else if code = 404 then "FAILED_ACCOUNT"
  else "FAILED_HTTP_" ++ toString code

/-- Body of `POST /deposit`. -/
structure DepositRequest where
  user_id : Nat
  amount : Int
deriving Repr, DecidableEq

/-- Body of `POST /transfer` (interbank). -/
structure TransferRequest where
  user_id : Nat
  amount : Int
  to_bank : String
  destination_phone_number : String
deriving Repr, DecidableEq

/-- Body of `POST /contribute`. -/
structure ContributionRequest where
  user_id : Nat
  group_id : Nat
  amount : Int
deriving Repr, DecidableEq

/-- Body of `POST /transfer/p2p`. -/
structure P2PTransferRequest where
  user_id : Nat
  destination_phone_number : String
  amount : Int
deriving Repr, DecidableEq

/-- ASCII uppercase of one character (Python `str.upper` on the bank-name
alphabet). -/
def charUpper (c : Char) : Char :=
  if 'a' ≤ c ∧ c ≤ 'z' then Char.ofNat (c.toNat - 32) else c

/-- ASCII uppercase of a string, as used by `req.to_bank.upper()`. -/
def strUpper (s : String) : String := ⟨s.data.map charUpper⟩

/-- Interbank gateway outcome for one `POST /interbank/transfers` call. -/
inductive IGResult where
  | accepted (remoteId : Nat)
  | httpErr (code : Nat)
  | netErr
deriving Repr, DecidableEq

/-- Ledger `POST /deposit`: idempotency check; PENDING batch insert into both
transaction tables; balance-service credit; on success bind the idempotency
key and then update the status to COMPLETED; re-read and return the record. -/
def deposit (st : LedgerState) (req : DepositRequest) (key txId now : Nat) : RunResult :=
  match check_idempotency st key with
  | some existingId =>
      match get_transaction_by_id st existingId with
      | some tx => ⟨.ok tx, st, []⟩
      | none => ⟨.err 500, st, []⟩
  | none =>
      let tx : Tx :=
        { id := txId, user_id := req.user_id,
          source_wallet_type := "EXTERNAL", source_wallet_id := "N/A",
          destination_wallet_type := "BDI", destination_wallet_id := toString req.user_id,
          type := "DEPOSIT", amount := req.amount, currency := "PEN",
          status := "PENDING", created_at := now, updated_at := now,
          metadata := "description: Deposito en BDI" }
      let st1 : LedgerState := { st with
        transactions := st.transactions ++ [tx],
        transactions_by_user := st.transactions_by_user ++ [tx] }
      match credit_balance st1.bal req.user_id req.amount with
      | .error c =>
          ⟨.err c,
           { st1 with transactions := setStatus st1.transactions txId "FAILED_BALANCE_SVC" now },
           [.esInsertPending txId, .baCredit req.user_id req.amount,
            .esUpdateStatus txId "FAILED_BALANCE_SVC"]⟩
      | .ok bal2 =>
          let st2 : LedgerState :=
            { st1 with
                bal := bal2,
                idempotency_keys := st1.idempotency_keys ++ [(key, txId)] }
          let st3 : LedgerState := { st2 with
            transactions := setStatus st2.transactions txId "COMPLETED" now }
          let tr : List Ev := [.esInsertPending txId, .baCredit req.user_id req.amount,
            .esBindKey key txId, .esUpdateStatus txId "COMPLETED"]
          match get_transaction_by_id st3 txId with
          | some txf => ⟨.ok txf, st3, tr⟩
          | none => ⟨.err 500, st3, tr⟩

/-- Ledger `POST /transfer` (interbank): destination-bank guard; idempotency
check; PENDING batch insert; then the saga check-funds → interbank gateway →
debit, with the shared HTTP-status classification on failure; on success bind
the idempotency key and then mark COMPLETED.  `igRes` is the gateway's
response; `debitFail = some c` injects a balance-service failure (HTTP `c`)
on the debit call, as can arise from concurrent debits or a 5xx. -/
def transfer (st : LedgerState) (req : TransferRequest) (key txId now : Nat)
    (igRes : IGResult) (debitFail : Option Nat) : RunResult :=
  if strUpper req.to_bank = "HAPPY_MONEY" then
    match check_idempotency st key with
    | some existingId =>
        match get_transaction_by_id st existingId with
        | some tx => ⟨.ok tx, st, []⟩
        | none => ⟨.err 500, st, []⟩
    | none =>
        let tx : Tx :=
          { id := txId, user_id := req.user_id,
            source_wallet_type := "BDI", source_wallet_id := toString req.user_id,
            destination_wallet_type := "EXTERNAL_BANK",
            destination_wallet_id := req.destination_phone_number,
            type := "TRANSFER", amount := req.amount, currency := "PEN",
            status := "PENDING", created_at := now, updated_at := now,
            metadata := "to_bank, destination_phone_number" }
        let st1 : LedgerState := { st with
          transactions := st.transactions ++ [tx],
          transactions_by_user := st.transactions_by_user ++ [tx] }
        match check_funds st1.bal req.user_id req.amount with
        | .error c =>
            ⟨.err c,
             { st1 with transactions := setStatus st1.transactions txId (statusForHttp c) now },
             [.esInsertPending txId, .baCheck req.user_id req.amount,
              .esUpdateStatus txId (statusForHttp c)]⟩
        | .ok _ =>
            match igRes with
            | .netErr =>
                ⟨.err 503,
                 { st1 with transactions := setStatus st1.transactions txId "FAILED_NETWORK" now },
                 [.esInsertPending txId, .baCheck req.user_id req.amount, .igSend txId,
                  .esUpdateStatus txId "FAILED_NETWORK"]⟩
            | .httpErr c =>
                ⟨.err c,
                 { st1 with transactions := setStatus st1.transactions txId (statusForHttp c) now },
                 [.esInsertPending txId, .baCheck req.user_id req.amount, .igSend txId,
                  .esUpdateStatus txId (statusForHttp c)]⟩
            | .accepted _ =>
                match (match debitFail with
                       | some c => Except.error c
                       | none => debit_balance st1.bal req.user_id req.amount) with
                | .error c =>
                    ⟨.err c,
                     { st1 with transactions := setStatus st1.transactions txId (statusForHttp c) now },
                     [.esInsertPending txId, .baCheck req.user_id req.amount, .igSend txId,
                      .baDebit req.user_id req.amount, .esUpdateStatus txId (statusForHttp c)]⟩
                | .ok bal2 =>
                    let st2 : LedgerState :=
                      { st1 with
                          bal := bal2,
                          idempotency_keys := st1.idempotency_keys ++ [(key, txId)] }
                    let st3 : LedgerState := { st2 with
                      transactions := setStatus st2.transactions txId "COMPLETED" now }
                    let tr : List Ev := [.esInsertPending txId, .baCheck req.user_id req.amount,
                      .igSend txId, .baDebit req.user_id req.amount,
                      .esBindKey key txId, .esUpdateStatus txId "COMPLETED"]
                    match get_transaction_by_id st3 txId with
                    | some txf => ⟨.ok txf, st3, tr⟩
                    | none => ⟨.err 500, st3, tr⟩
  else ⟨.err 400, st, []⟩

/-- Ledger `POST /contribute` (`contribute_to_group`): idempotency check;
PENDING insert into the id-keyed table only; then the saga issues the
check-funds, debit and group-credit calls but never inspects their responses
(the source performs the three `client.post` calls without
`raise_for_status`), so each call's effect is whatever the balance service
applied and the path continues regardless; the status is then set COMPLETED
unconditionally, after binding the idempotency key. -/
def contribute (st : LedgerState) (req : ContributionRequest) (key txId now : Nat) : RunResult :=
  match check_idempotency st key with
  | some existingId =>
      match get_transaction_by_id st existingId with
      | some tx => ⟨.ok tx, st, []⟩
      | none => ⟨.err 500, st, []⟩
  | none =>
      let tx : Tx :=
        { id := txId, user_id := req.user_id,
          source_wallet_type := "BDI", source_wallet_id := toString req.user_id,
          destination_wallet_type := "BDG", destination_wallet_id := toString req.group_id,
          type := "CONTRIBUTION", amount := req.amount, currency := "PEN",
          status := "PENDING", created_at := now, updated_at := now,
          metadata := "contribution_to_group_id" }
      let st1 : LedgerState := { st with transactions := st.transactions ++ [tx] }
      let bal1 : BalanceState :=
        match debit_balance st1.bal req.user_id req.amount with
        | .ok b => b
        | .error _ => st1.bal
      let bal2 : BalanceState :=
        match credit_group_balance bal1 req.group_id req.amount with
        | .ok b => b
        | .error _ => bal1
      let st2 : LedgerState :=
        { st1 with
            bal := bal2,
            idempotency_keys := st1.idempotency_keys ++ [(key, txId)] }
      let st3 : LedgerState := { st2 with
        transactions := setStatus st2.transactions txId "COMPLETED" now }
      let tr : List Ev := [.esInsertPending txId, .baCheck req.user_id req.amount,
        .baDebit req.user_id req.amount, .bgCredit req.group_id req.amount,
        .esBindKey key txId, .esUpdateStatus txId "COMPLETED"]
      match get_transaction_by_id st3 txId with
      | some txf => ⟨.ok txf, st3, tr⟩
      | none => ⟨.err 500, st3, tr⟩

/-- Ledger `POST /transfer/p2p`: idempotency check; recipient resolution by
phone; self-transfer guard; check-funds and debit of the sender; credit of
the recipient with a credit-back compensation on failure; only then a batch
write to the event store that inserts the sender's `P2P_SENT` record (already
COMPLETED) in both tables and binds the idempotency key — the recipient's
incoming record is never inserted (the credit-side statements in the source
are placeholders that are never added to the batch).  `esOk = false` injects
a failure of that final batch write. -/
def transfer_p2p (st : LedgerState) (req : P2PTransferRequest)
    (key txIdDebit _txIdCredit now : Nat) (esOk : Bool) : RunResult :=
  match check_idempotency st key with
  | some existingId =>
      match get_transaction_by_id st existingId with
      | some tx => ⟨.ok tx, st, []⟩
      | none => ⟨.err 500, st, []⟩
  | none =>
      match lookupPhone st.directory req.destination_phone_number with
      | none => ⟨.err 404, st, [.rdLookup req.destination_phone_number]⟩
      | some rid =>
          if rid = req.user_id then
            ⟨.err 400, st, [.rdLookup req.destination_phone_number]⟩
          else
            match check_funds st.bal req.user_id req.amount with
            | .error c =>
                ⟨.err c, st, [.rdLookup req.destination_phone_number,
                  .baCheck req.user_id req.amount]⟩
            | .ok _ =>
                match debit_balance st.bal req.user_id req.amount with
                | .error c =>
                    ⟨.err c, st, [.rdLookup req.destination_phone_number,
                      .baCheck req.user_id req.amount, .baDebit req.user_id req.amount]⟩
                | .ok bal1 =>
                    match credit_balance bal1 rid req.amount with
                    | .error _ =>
                        match credit_balance bal1 req.user_id req.amount with
                        | .ok balr =>
                            ⟨.err 503, { st with bal := balr },
                             [.rdLookup req.destination_phone_number,
                              .baCheck req.user_id req.amount, .baDebit req.user_id req.amount,
                              .baCredit rid req.amount, .baCredit req.user_id req.amount]⟩
                        | .error _ =>
                            ⟨.err 503, { st with bal := bal1 },
                             [.rdLookup req.destination_phone_number,
                              .baCheck req.user_id req.amount, .baDebit req.user_id req.amount,
                              .baCredit rid req.amount, .baCredit req.user_id req.amount]⟩
                    | .ok bal2 =>
                        let st1 : LedgerState := { st with bal := bal2 }
                        let sagaTr : List Ev := [.rdLookup req.destination_phone_number,
                          .baCheck req.user_id req.amount, .baDebit req.user_id req.amount,
                          .baCredit rid req.amount]
                        if esOk then
                          let txd : Tx :=
                            { id := txIdDebit, user_id := req.user_id,
                              source_wallet_type := "BDI", source_wallet_id := toString req.user_id,
                              destination_wallet_type := "BDI", destination_wallet_id := toString rid,
                              type := "P2P_SENT", amount := req.amount, currency := "PEN",
                              status := "COMPLETED", created_at := now, updated_at := now,
                              metadata := "" }
                          let st2 : LedgerState :=
                            { st1 with
                                transactions := st1.transactions ++ [txd],
                                transactions_by_user := st1.transactions_by_user ++ [txd],
                                idempotency_keys := st1.idempotency_keys ++ [(key, txIdDebit)] }
                          let tr : List Ev := sagaTr ++
                            [.esInsertCompleted txIdDebit, .esBindKey key txIdDebit]
                          match get_transaction_by_id st2 txIdDebit with
                          | some txf => ⟨.ok txf, st2, tr⟩
                          | none => ⟨.err 500, st2, tr⟩
                        else
                          ⟨.err 500, st1, sagaTr⟩

/-- Ledger `GET /transactions/me`: read `transactions_by_user` filtered by the
caller's id from the `X-User-ID` header, ordered by `created_at` descending,
limit 50. -/
def get_my_transactions (st : LedgerState) (uid : Nat) : List Tx :=
  ((st.transactions_by_user.filter (fun t => t.user_id == uid)).mergeSort
    (fun a b => decide (b.created_at ≤ a.created_at))).take 50

/-- Recognizes the PENDING batch insert among event-store writes. -/
def isEsPendingWrite : Ev → Bool
  | .esInsertPending _ => true
  | _ => false

/-- Recognizes any event-store write. -/
def isEsWrite : Ev → Bool
  | .esInsertPending _ => true
  | .esInsertCompleted _ => true
  | .esUpdateStatus _ _ => true
  | .esBindKey _ _ => true
  | _ => false

/-- Recognizes external side effects: balance credits/debits, group credits
and interbank gateway calls (funds checks and directory lookups are
read-only). -/
def isSideEffect : Ev → Bool
  | .baDebit _ _ => true
  | .baCredit _ _ => true
  | .bgCredit _ _ => true
  | .igSend _ => true
  | _ => false

/-- Recognizes sender-debit calls. -/
def isBaDebitEv : Ev → Bool
  | .baDebit _ _ => true
  | _ => false

/-- Recognizes balance-credit calls (including compensations). -/
def isBaCreditEv : Ev → Bool
  | .baCredit _ _ => true
  | _ => false

/-- Recognizes interbank gateway calls. -/
def isIgSendEv : Ev → Bool
  | .igSend _ => true
  | _ => false

/-- Recognizes funds-check calls. -/
def isBaCheckEv : Ev → Bool
  | .baCheck _ _ => true
  | _ => false

/-- Checks that no `B`-event occurs before the first `A`-event of the trace;
equivalently, every `B`-event is preceded by some `A`-event. -/
def beforeOk (isA isB : Ev → Bool) : List Ev → Bool
  | [] => true
  | e :: rest => if isA e then true else if isB e then false else beforeOk isA isB rest

/-- Status of transaction `txId` as stored in the event store after replaying
a prefix of a trace (`none` when no record for `txId` has been written). -/
def statusAfter (tr : List Ev) (txId : Nat) : Option String :=
  tr.foldl (fun acc e =>
    match e with
    | .esInsertPending i => if i = txId then some "PENDING" else acc
    | .esInsertCompleted i => if i = txId then some "COMPLETED" else acc
    | .esUpdateStatus i s => if i = txId then some s else acc
    | _ => acc) none

/-- All idempotency-binding insertions of a trace, each paired with the bound
transaction's stored status at the moment the binding is inserted.  The first
argument accumulates the already-replayed prefix; call with `[]`. -/
def bindMoments : List Ev → List Ev → List (Nat × Nat × Option String)
  | _, [] => []
  | pre, e :: rest =>
      match e with
      | .esBindKey k i => (k, i, statusAfter pre i) :: bindMoments (pre ++ [e]) rest
      | _ => bindMoments (pre ++ [e]) rest

/-- Status carried by a 2xx response body, `none` for an error response. -/
def respStatus : Resp → Option String
  | .ok tx => some tx.status
  | .err _ => none

/-- Transaction id carried by a 2xx response body. -/
def respTxId : Resp → Option Nat
  | .ok tx => some tx.id
  | .err _ => none

/-- Referential integrity of an idempotency table against a transactions
table: every binding points at an existing transaction whose stored status is
non-PENDING. -/
def KeysMatchedT (T : List Tx) (K : List (Nat × Nat)) : Prop :=
  ∀ p ∈ K, ∃ t, T.find? (fun x => x.id == p.2) = some t ∧ t.status ≠ "PENDING"

/-- The referential-integrity invariant instantiated at a system state. -/
def KeysMatched (st : LedgerState) : Prop :=
  KeysMatchedT st.transactions st.idempotency_keys

/-- Concrete system state used to witness the theorems: user 1 holds 100.00
(10000 minor units), user 2 (phone 999111222) holds 0, group 10 holds 0; the
event store is empty. -/
def S0 : LedgerState :=
  { bal := { accounts := [(1, 10000), (2, 0)], groups := [(10, 0)] },
    transactions := [], transactions_by_user := [],
    idempotency_keys := [], directory := [("999111222", 2)] }

/-! ### Helper lemmas about the association lists and the event-store tables -/

theorem lookupAcct_updateAcct_self (l : List (Nat × Int)) (u : Nat) (v : Int)
    (h : (lookupAcct l u).isSome) :
    lookupAcct (updateAcct l u v) u = some v := by
  induction l with
  | nil => simp [lookupAcct] at h
  | cons p rest ih =>
      obtain ⟨a, b⟩ := p
      by_cases hp : a = u
      · subst hp
        simp [updateAcct, lookupAcct]
      · simp only [lookupAcct, if_neg hp] at h
        simpa [updateAcct, lookupAcct, hp] using ih h

theorem lookupAcct_updateAcct_ne (l : List (Nat × Int)) (u w : Nat) (v : Int)
    (h : w ≠ u) :
    lookupAcct (updateAcct l u v) w = lookupAcct l w := by
  induction l with
  | nil => simp [updateAcct, lookupAcct]
  | cons p rest ih =>
      obtain ⟨a, b⟩ := p
      by_cases hp : a = u
      · subst hp
        have hne : ¬ (a = w) := fun hc => h hc.symm
        simpa [updateAcct, lookupAcct, hne] using ih
      · by_cases hw : a = w
        · simp [updateAcct, lookupAcct, hp, hw, h]
        · simpa [updateAcct, lookupAcct, hp, hw] using ih

/-- A status update is a `map` that preserves ids, so a point lookup commutes
with it. -/
theorem findTx_setStatus (l : List Tx) (i j : Nat) (s : String) (n : Nat) :
    (setStatus l j s n).find? (fun t => t.id == i)
      = (l.find? (fun t => t.id == i)).map
          (fun t => if t.id = j then { t with status := s, updated_at := n } else t) := by
  rw [setStatus, List.find?_map]
  have hcomp : ((fun t : Tx => t.id == i)
        ∘ (fun t => if t.id = j then { t with status := s, updated_at := n } else t))
      = fun t : Tx => t.id == i := by
    funext t
    by_cases h' : t.id = j <;> simp [Function.comp, h']
  rw [hcomp]

/-- Looking up a transaction id in a table known not to contain it, after a
status update targeting that very id, still finds nothing. -/
theorem findTx_setStatus_of_none (l : List Tx) (i : Nat) (s : String) (n : Nat)
    (h : l.find? (fun t => t.id == i) = none) :
    (setStatus l i s n).find? (fun t => t.id == i) = none := by
  rw [findTx_setStatus, h]
  rfl

/-- A status update targeting a different id does not change a point lookup. -/
theorem findTx_setStatus_ne (l : List Tx) (i j : Nat) (s : String) (n : Nat)
    (h : i ≠ j) :
    (setStatus l j s n).find? (fun t => t.id == i) = l.find? (fun t => t.id == i) := by
  rw [findTx_setStatus]
  cases hf : l.find? (fun t => t.id == i) with
  | none => rfl
  | some t =>
      have ht : t.id = i := by simpa using List.find?_some hf
      have : ¬ t.id = j := fun hc => h (ht ▸ hc)
      simp [this]

/-- Point lookup of a freshly appended transaction after a status update
targeting its id. -/
theorem findTx_setStatus_append_fresh (l : List Tx) (tx : Tx) (s : String) (n : Nat)
    (h : l.find? (fun t => t.id == tx.id) = none) :
    (setStatus (l ++ [tx]) tx.id s n).find? (fun t => t.id == tx.id)
      = some { tx with status := s, updated_at := n } := by
  have hmap : setStatus (l ++ [tx]) tx.id s n
      = setStatus l tx.id s n ++ setStatus [tx] tx.id s n := by
    simp [setStatus]
  rw [hmap, List.find?_append, findTx_setStatus_of_none l tx.id s n h]
  simp [setStatus]

/-- Point lookup of a freshly appended transaction. -/
theorem findTx_append_fresh (l : List Tx) (tx : Tx)
    (h : l.find? (fun t => t.id == tx.id) = none) :
    (l ++ [tx]).find? (fun t => t.id == tx.id) = some tx := by
  rw [List.find?_append, h]
  simp

/-- A point lookup that already succeeds in the prefix is unaffected by an
appended row and by a status update targeting a different id. -/
theorem findTx_preserved (T : List Tx) (tx : Tx) (i j : Nat) (s : String) (n : Nat) (t : Tx)
    (h : T.find? (fun x => x.id == i) = some t) (hne : i ≠ j) :
    (setStatus (T ++ [tx]) j s n).find? (fun x => x.id == i) = some t := by
  rw [findTx_setStatus_ne _ _ _ _ _ hne, List.find?_append, h]
  rfl

/-- A point lookup that already succeeds is unaffected by an appended row. -/
theorem findTx_append_old (T : List Tx) (tx : Tx) (i : Nat) (t : Tx)
    (h : T.find? (fun x => x.id == i) = some t) :
    (T ++ [tx]).find? (fun x => x.id == i) = some t := by
  rw [List.find?_append, h]
  rfl

/-! ### C6: debit semantics and the non-negativity of committed balances -/

/-- C6: for every account and every debit request, the debit succeeds exactly
when the account exists and its balance is at least the amount (equality
included); on success the debited balance is the old balance minus the
amount, which is non-negative, other rows are untouched; a rejection returns
an error and, the transaction having rolled back, yields no successor state
at all, so no committed debit leaves any balance below zero.  The same holds
for the group variant. -/
theorem debit_balance_spec (st : BalanceState) (u : Nat) (a : Int) :
    ((∃ st', debit_balance st u a = .ok st') ↔
      ∃ b, lookupAcct st.accounts u = some b ∧ a ≤ b) ∧
    (∀ st', debit_balance st u a = .ok st' →
      ∃ b, lookupAcct st.accounts u = some b ∧
        lookupAcct st'.accounts u = some (b - a) ∧ 0 ≤ b - a ∧
        st'.groups = st.groups ∧
        ∀ w, w ≠ u → lookupAcct st'.accounts w = lookupAcct st.accounts w) ∧
    ((∃ st', debit_group_balance st u a = .ok st') ↔
      ∃ b, lookupAcct st.groups u = some b ∧ a ≤ b) ∧
    (∀ st', debit_group_balance st u a = .ok st' →
      ∃ b, lookupAcct st.groups u = some b ∧
        lookupAcct st'.groups u = some (b - a) ∧ 0 ≤ b - a ∧
        st'.accounts = st.accounts ∧
        ∀ w, w ≠ u → lookupAcct st'.groups w = lookupAcct st.groups w) := by
  refine ⟨?_, ?_, ?_, ?_⟩
  · cases hl : lookupAcct st.accounts u with
    | none => simp [debit_balance, hl]
    | some b =>
        by_cases hba : b < a
        · simp only [debit_balance, hl, if_pos hba]
          constructor
          · rintro ⟨st', hst⟩
            exact absurd hst (by simp)
          · rintro ⟨b', hb', hab⟩
            injection hb' with hb'
            omega
        · simp only [debit_balance, hl, if_neg hba]
          constructor
          · intro _
            exact ⟨b, rfl, by omega⟩
          · intro _
            exact ⟨_, rfl⟩
  · intro st' h
    cases hl : lookupAcct st.accounts u with
    | none => simp [debit_balance, hl] at h
    | some b =>
        by_cases hba : b < a
        · simp [debit_balance, hl, hba] at h
        · simp only [debit_balance, hl, if_neg hba, Except.ok.injEq] at h
          subst h
          refine ⟨b, rfl, ?_, by omega, rfl, ?_⟩
          · exact lookupAcct_updateAcct_self _ _ _ (by simp [hl])
          · intro w hw
            exact lookupAcct_updateAcct_ne _ _ _ _ hw
  · cases hl : lookupAcct st.groups u with
    | none => simp [debit_group_balance, hl]
    | some b =>
        by_cases hba : b < a
        · simp only [debit_group_balance, hl, if_pos hba]
          constructor
          · rintro ⟨st', hst⟩
            exact absurd hst (by simp)
          · rintro ⟨b', hb', hab⟩
            injection hb' with hb'
            omega
        · simp only [debit_group_balance, hl, if_neg hba]
          constructor
          · intro _
            exact ⟨b, rfl, by omega⟩
          · intro _
            exact ⟨_, rfl⟩
  · intro st' h
    cases hl : lookupAcct st.groups u with
    | none => simp [debit_group_balance, hl] at h
    | some b =>
        by_cases hba : b < a
        · simp [debit_group_balance, hl, hba] at h
        · simp only [debit_group_balance, hl, if_neg hba, Except.ok.injEq] at h
          subst h
          refine ⟨b, rfl, ?_, by omega, rfl, ?_⟩
          · exact lookupAcct_updateAcct_self _ _ _ (by simp [hl])
          · intro w hw
            exact lookupAcct_updateAcct_ne _ _ _ _ hw

/-- Witness for `debit_balance_spec` at a concrete account: user 1 holds
10000 and a debit of exactly 10000 succeeds, leaving balance 0. -/
theorem debit_balance_spec_witness :
    ∃ st', debit_balance S0.bal 1 10000 = .ok st' ∧
      lookupAcct st'.accounts 1 = some 0 := by
  obtain ⟨st', hst⟩ := (debit_balance_spec S0.bal 1 10000).1.mpr
    ⟨10000, by decide, by decide⟩
  obtain ⟨b, hb, hb', _, _, _⟩ := (debit_balance_spec S0.bal 1 10000).2.1 st' hst
  refine ⟨st', hst, ?_⟩
  have : b = 10000 := by
    have : lookupAcct S0.bal.accounts 1 = some 10000 := by decide
    rw [this] at hb
    injection hb with hb
    omega
  subst this
  simpa using hb'

/-! ### C10: history query shape -/

/-- C10: every history query returns only records whose `user_id` is the
caller's id from the `X-User-ID` header, sorted by `created_at` descending,
and at most 50 of them. -/
theorem history_query_spec (st : LedgerState) (uid : Nat) :
    (∀ t ∈ get_my_transactions st uid, t.user_id = uid) ∧
    (get_my_transactions st uid).Pairwise (fun a b => b.created_at ≤ a.created_at) ∧
    (get_my_transactions st uid).length ≤ 50 := by
  refine ⟨?_, ?_, ?_⟩
  · intro t ht
    have h1 := List.mem_of_mem_take ht
    have h2 := List.mem_mergeSort.mp h1
    have h3 := List.mem_filter.mp h2
    simpa using h3.2
  · have hs := @List.sorted_mergeSort Tx
      (fun a b : Tx => decide (b.created_at ≤ a.created_at))
      (fun a b c hab hbc => by
        simp only [decide_eq_true_eq] at hab hbc ⊢
        omega)
      (fun a b => by
        simp only [Bool.or_eq_true, decide_eq_true_eq]
        omega)
      (st.transactions_by_user.filter (fun t => t.user_id == uid))
    have hs' := hs.imp (fun h => of_decide_eq_true h)
    exact List.Pairwise.sublist (List.take_sublist _ _) hs'
  · exact List.length_take_le _ _

/-- Witness for `history_query_spec` at the concrete state `S0`. -/
theorem history_query_spec_witness :
    (∀ t ∈ get_my_transactions S0 1, t.user_id = 1) ∧
    (get_my_transactions S0 1).length ≤ 50 :=
  ⟨(history_query_spec S0 1).1, (history_query_spec S0 1).2.2⟩

/-! ### Concrete runs used by the remaining claims -/

/-- A successful deposit of 5.00 by user 1 under idempotency key 77. -/
def depositRun : RunResult := deposit S0 { user_id := 1, amount := 500 } 77 1000 1

/-- A contribution of 100.01 by user 1 (balance 100.00) to group 10: one
minor unit more than the contributor holds. -/
def contributeRun : RunResult :=
  contribute S0 { user_id := 1, group_id := 10, amount := 10001 } 55 900 3

/-- A successful P2P transfer of 75.50 from user 1 to user 2 (resolved via
phone 999111222) under idempotency key 66, with transaction-id pair
(700, 701). -/
def p2pRun : RunResult :=
  transfer_p2p S0 { user_id := 1, destination_phone_number := "999111222", amount := 7550 }
    66 700 701 5 true

/-- An interbank transfer where the gateway accepted the intent (remote id 9)
and the subsequent sender debit fails with HTTP 400. -/
def transferPostIgDebitFailRun : RunResult :=
  transfer S0
    { user_id := 1, amount := 4000, to_bank := "HAPPY_MONEY",
      destination_phone_number := "999111222" }
    88 800 4 (.accepted 9) (some 400)

/-! ### C2: contribution with insufficient funds -/

/-- C2 (code behaviour at the failing input): with the contributor's balance
one minor unit short, the contribution endpoint nevertheless returns a 2xx
record in status COMPLETED, leaves the contributor's balance unchanged, and
credits the group by the full amount — because the saga never inspects the
check/debit/credit responses.  The claimed 4xx / FAILED_FUNDS / no-change
behaviour does not occur. -/
theorem contribute_insufficient_funds_behavior :
    respStatus contributeRun.resp = some "COMPLETED" ∧
    contributeRun.resp ≠ .err 400 ∧
    lookupAcct contributeRun.state.bal.accounts 1 = some 10000 ∧
    lookupAcct contributeRun.state.bal.groups 10 = some 10001 ∧
    (get_transaction_by_id contributeRun.state 900).map Tx.status = some "COMPLETED" := by
  decide

/-! ### C3: the P2P batch writes only the outgoing record -/

/-- C3 (code behaviour at the failing input): after a fully successful P2P
transfer — money moved from user 1 to user 2 — the event store contains no
record at all for the recipient: the by-user table has no row with user_id 2,
the recipient's history query is empty, the credit-side transaction id 701
does not exist, and no P2P_RECEIVED record exists anywhere. -/
theorem p2p_missing_incoming_record :
    respStatus p2pRun.resp = some "COMPLETED" ∧
    respTxId p2pRun.resp = some 700 ∧
    lookupAcct p2pRun.state.bal.accounts 1 = some 2450 ∧
    lookupAcct p2pRun.state.bal.accounts 2 = some 7550 ∧
    p2pRun.state.transactions_by_user.filter (fun t => t.user_id == 2) = [] ∧
    get_my_transactions p2pRun.state 2 = [] ∧
    get_transaction_by_id p2pRun.state 701 = none ∧
    p2pRun.state.transactions.filter (fun t => t.type == "P2P_RECEIVED") = [] := by
  refine ⟨by decide, by decide, by decide, by decide, by decide, ?_, by decide, by decide⟩
  have hf : p2pRun.state.transactions_by_user.filter (fun t => t.user_id == 2) = [] := by
    decide
  simp [get_my_transactions, hf]

/-! ### C4: PENDING-before-side-effect discipline -/

/-- C4 counterexample: in a successful P2P transfer the sender debit is
issued although no event-store write (in particular no PENDING record) has
happened before it, so the claim "every operation writes a PENDING record
before any external side effect; in particular the P2P transfer writes its
PENDING record before debiting the sender" is false on the code. -/
theorem p2p_debits_before_any_event_store_write :
    respStatus p2pRun.resp = some "COMPLETED" ∧
    p2pRun.trace.any isBaDebitEv = true ∧
    beforeOk isEsPendingWrite isSideEffect p2pRun.trace = false ∧
    beforeOk isEsWrite isSideEffect p2pRun.trace = false := by
  decide

/-! ### C5: post-acceptance debit failure -/

/-- C5 counterexample: when the gateway has accepted and the debit then fails
with HTTP 400, the transfer records terminal status FAILED_FUNDS (not
FAILED_DEBIT_POST_CONFIRMATION) and surfaces the debit's own 400 (not an
internal 500). -/
theorem post_ig_debit_failure_status_concrete :
    transferPostIgDebitFailRun.resp = .err 400 ∧
    transferPostIgDebitFailRun.resp ≠ .err 500 ∧
    (get_transaction_by_id transferPostIgDebitFailRun.state 800).map Tx.status
      = some "FAILED_FUNDS" ∧
    (get_transaction_by_id transferPostIgDebitFailRun.state 800).map Tx.status
      ≠ some "FAILED_DEBIT_POST_CONFIRMATION" ∧
    transferPostIgDebitFailRun.trace.any isIgSendEv = true ∧
    transferPostIgDebitFailRun.trace.any isBaDebitEv = true := by
  decide

/-- C5 amended: when the gateway has accepted the intent (any remote id `r`)
and the subsequent sender debit fails with HTTP status `c`, the transfer
records the terminal status given by the shared classification
(`FAILED_FUNDS` for 400, `FAILED_ACCOUNT` for 404, otherwise
`FAILED_HTTP_<c>`), re-raises the debit's own status code `c` to the caller,
and attempts no automatic compensation: the trace ends right after the failed
debit, with no balance-credit call. -/
theorem post_ig_debit_failure_amended (st : LedgerState) (req : TransferRequest)
    (key txId now r c : Nat)
    (hbank : strUpper req.to_bank = "HAPPY_MONEY")
    (hkey : check_idempotency st key = none)
    (hchk : check_funds st.bal req.user_id req.amount = .ok ()) :
    (transfer st req key txId now (.accepted r) (some c)).resp = .err c ∧
    (transfer st req key txId now (.accepted r) (some c)).trace
      = [.esInsertPending txId, .baCheck req.user_id req.amount, .igSend txId,
         .baDebit req.user_id req.amount, .esUpdateStatus txId (statusForHttp c)] ∧
    statusAfter (transfer st req key txId now (.accepted r) (some c)).trace txId
      = some (statusForHttp c) ∧
    (transfer st req key txId now (.accepted r) (some c)).trace.all
        (fun e => !isBaCreditEv e) = true := by
  dsimp only [transfer]
  rw [if_pos hbank]
  simp only [hkey, hchk]
  simp [statusAfter, List.foldl_cons, List.foldl_nil, isBaCreditEv]

/-- Witness for `post_ig_debit_failure_amended` at the concrete run. -/
theorem post_ig_debit_failure_amended_witness :
    transferPostIgDebitFailRun.resp = .err 400 ∧
    statusAfter transferPostIgDebitFailRun.trace 800 = some (statusForHttp 400) ∧
    transferPostIgDebitFailRun.trace.all (fun e => !isBaCreditEv e) = true := by
  have h := post_ig_debit_failure_amended S0
    { user_id := 1, amount := 4000, to_bank := "HAPPY_MONEY",
      destination_phone_number := "999111222" }
    88 800 4 9 400 (by decide) (by decide) rfl
  exact ⟨h.1, h.2.2.1, h.2.2.2⟩

/-! ### C9: a post-saga event-store failure defeats idempotency on retry -/

/-- C9: on the P2P path, if the final event-store batch write fails after a
successful debit and credit, the endpoint answers 500 while neither a
transaction record nor an idempotency binding has been stored (the money
moved regardless); a retry with the same key therefore misses the
idempotency check and re-executes the debit and the credit, leaving the
sender debited twice. -/
theorem p2p_es_failure_retry_reexecutes
    (st : LedgerState) (req : P2PTransferRequest)
    (key d1 c1 n1 d2 c2 n2 : Nat) (e2 : Bool) (rid : Nat) (b br : Int)
    (hkey : check_idempotency st key = none)
    (hdir : lookupPhone st.directory req.destination_phone_number = some rid)
    (hne : rid ≠ req.user_id)
    (hb : lookupAcct st.bal.accounts req.user_id = some b)
    (hbr : lookupAcct st.bal.accounts rid = some br)
    (hpos : 0 < req.amount)
    (hamt : req.amount + req.amount ≤ b) :
    (transfer_p2p st req key d1 c1 n1 false).resp = .err 500 ∧
    (transfer_p2p st req key d1 c1 n1 false).state.transactions = st.transactions ∧
    (transfer_p2p st req key d1 c1 n1 false).state.transactions_by_user
      = st.transactions_by_user ∧
    (transfer_p2p st req key d1 c1 n1 false).state.idempotency_keys
      = st.idempotency_keys ∧
    check_idempotency (transfer_p2p st req key d1 c1 n1 false).state key = none ∧
    lookupAcct (transfer_p2p st req key d1 c1 n1 false).state.bal.accounts req.user_id
      = some (b - req.amount) ∧
    ((transfer_p2p (transfer_p2p st req key d1 c1 n1 false).state req key d2 c2 n2
        e2).trace.any isBaDebitEv = true ∧
     (transfer_p2p (transfer_p2p st req key d1 c1 n1 false).state req key d2 c2 n2
        e2).trace.any isBaCreditEv = true ∧
     lookupAcct (transfer_p2p (transfer_p2p st req key d1 c1 n1 false).state req key d2 c2 n2
        e2).state.bal.accounts req.user_id = some (b - req.amount - req.amount)) := by
  have hub : req.user_id ≠ rid := fun hc => hne hc.symm
  have hchk1 : check_funds st.bal req.user_id req.amount = .ok () := by
    unfold check_funds
    simp only [hb]
    rw [if_neg (by omega)]
  have hdeb1 : debit_balance st.bal req.user_id req.amount
      = .ok (BalanceState.mk
          (updateAcct st.bal.accounts req.user_id (b - req.amount)) st.bal.groups) := by
    unfold debit_balance
    simp only [hb]
    rw [if_neg (by omega)]
  have hlook1 : lookupAcct (updateAcct st.bal.accounts req.user_id (b - req.amount)) rid
      = some br := by
    rw [lookupAcct_updateAcct_ne _ _ _ _ hne]
    exact hbr
  have hcred1 : credit_balance
      (BalanceState.mk
        (updateAcct st.bal.accounts req.user_id (b - req.amount)) st.bal.groups)
      rid req.amount
      = .ok (BalanceState.mk
          (updateAcct (updateAcct st.bal.accounts req.user_id (b - req.amount)) rid
            (br + req.amount))
          st.bal.groups) := by
    unfold credit_balance
    dsimp only
    simp only [hlook1]
  have hrun1 : transfer_p2p st req key d1 c1 n1 false
      = RunResult.mk (.err 500)
          (LedgerState.mk
            (BalanceState.mk
              (updateAcct (updateAcct st.bal.accounts req.user_id (b - req.amount)) rid
                (br + req.amount))
              st.bal.groups)
            st.transactions st.transactions_by_user st.idempotency_keys st.directory)
          [.rdLookup req.destination_phone_number, .baCheck req.user_id req.amount,
           .baDebit req.user_id req.amount, .baCredit rid req.amount] := by
    dsimp only [transfer_p2p]
    simp only [hkey, hdir, if_neg hne, hchk1, hdeb1, hcred1]
    rfl
  rw [hrun1]
  have hb2 : lookupAcct
      (updateAcct (updateAcct st.bal.accounts req.user_id (b - req.amount)) rid
        (br + req.amount)) req.user_id = some (b - req.amount) := by
    rw [lookupAcct_updateAcct_ne _ _ _ _ hub]
    exact lookupAcct_updateAcct_self _ _ _ (by rw [hb]; rfl)
  refine ⟨rfl, rfl, rfl, rfl, hkey, hb2, ?_⟩
  have hbr2 : lookupAcct
      (updateAcct (updateAcct st.bal.accounts req.user_id (b - req.amount)) rid
        (br + req.amount)) rid = some (br + req.amount) :=
    lookupAcct_updateAcct_self _ _ _ (by rw [hlook1]; rfl)
  have hkey2 : check_idempotency
      (LedgerState.mk
        (BalanceState.mk
          (updateAcct (updateAcct st.bal.accounts req.user_id (b - req.amount)) rid
            (br + req.amount))
          st.bal.groups)
        st.transactions st.transactions_by_user st.idempotency_keys st.directory)
      key = none := hkey
  have hchk2 : check_funds
      (BalanceState.mk
        (updateAcct (updateAcct st.bal.accounts req.user_id (b - req.amount)) rid
          (br + req.amount))
        st.bal.groups)
      req.user_id req.amount = .ok () := by
    unfold check_funds
    dsimp only
    simp only [hb2]
    rw [if_neg (by omega)]
  have hdeb2 : debit_balance
      (BalanceState.mk
        (updateAcct (updateAcct st.bal.accounts req.user_id (b - req.amount)) rid
          (br + req.amount))
        st.bal.groups)
      req.user_id req.amount
      = .ok (BalanceState.mk
          (updateAcct
            (updateAcct (updateAcct st.bal.accounts req.user_id (b - req.amount)) rid
              (br + req.amount))
            req.user_id (b - req.amount - req.amount))
          st.bal.groups) := by
    unfold debit_balance
    dsimp only
    simp only [hb2]
    rw [if_neg (by omega)]
  have hlook2 : lookupAcct
      (updateAcct
        (updateAcct (updateAcct st.bal.accounts req.user_id (b - req.amount)) rid
          (br + req.amount))
        req.user_id (b - req.amount - req.amount)) rid
      = some (br + req.amount) := by
    rw [lookupAcct_updateAcct_ne _ _ _ _ hne]
    exact hbr2
  have hcred2 : credit_balance
      (BalanceState.mk
        (updateAcct
          (updateAcct (updateAcct st.bal.accounts req.user_id (b - req.amount)) rid
            (br + req.amount))
          req.user_id (b - req.amount - req.amount))
        st.bal.groups)
      rid req.amount
      = .ok (BalanceState.mk
          (updateAcct
            (updateAcct
              (updateAcct (updateAcct st.bal.accounts req.user_id (b - req.amount)) rid
                (br + req.amount))
              req.user_id (b - req.amount - req.amount))
            rid (br + req.amount + req.amount))
          st.bal.groups) := by
    unfold credit_balance
    dsimp only
    simp only [hlook2]
  have hfin : lookupAcct
      (updateAcct
        (updateAcct
          (updateAcct (updateAcct st.bal.accounts req.user_id (b - req.amount)) rid
            (br + req.amount))
          req.user_id (b - req.amount - req.amount))
        rid (br + req.amount + req.amount))
      req.user_id = some (b - req.amount - req.amount) := by
    rw [lookupAcct_updateAcct_ne _ _ _ _ hub]
    exact lookupAcct_updateAcct_self _ _ _ (by rw [hb2]; rfl)
  dsimp only [transfer_p2p]
  simp only [hkey2, hdir, if_neg hne, hchk2, hdeb2, hcred2]
  cases e2 with
  | false => exact ⟨rfl, rfl, hfin⟩
  | true =>
      split
      next =>
        split
        · exact ⟨rfl, rfl, hfin⟩
        · exact ⟨rfl, rfl, hfin⟩
      next hcontra => exact absurd rfl hcontra

/-- Witness for `p2p_es_failure_retry_reexecutes`: user 1 (balance 100.00)
sends 30.00 to user 2 with the event-store write failing; the retry debits
again, ending at 40.00. -/
theorem p2p_es_failure_retry_reexecutes_witness :
    lookupAcct
      (transfer_p2p
        (transfer_p2p S0
          { user_id := 1, destination_phone_number := "999111222", amount := 3000 }
          91 710 711 7 false).state
        { user_id := 1, destination_phone_number := "999111222", amount := 3000 }
        91 712 713 8 true).state.bal.accounts 1 = some 4000 :=
  (p2p_es_failure_retry_reexecutes S0
      { user_id := 1, destination_phone_number := "999111222", amount := 3000 }
      91 710 711 7 712 713 8 true 2 10000 0
      (by decide) (by decide) (by decide) (by decide) (by decide)
      (by decide) (by decide)).2.2.2.2.2.2.2.2

/-! ### C8: binding moment versus stored status -/

/-- C8 counterexample: in a successful deposit the idempotency binding is
inserted while the stored transaction status is still PENDING — the COMPLETED
status update is issued only after the binding — so the claim that the bound
transaction "has already reached a terminal non-PENDING status at the moment
the binding is inserted" is false on the code. -/
theorem binding_inserted_while_pending :
    respStatus depositRun.resp = some "COMPLETED" ∧
    bindMoments [] depositRun.trace = [(77, 1000, some "PENDING")] := by
  decide

/-- C4 amended: the deposit, interbank transfer and contribution endpoints
write their PENDING record to the event store before issuing any external
side effect (balance credit or debit, group credit, interbank call); the P2P
transfer instead never writes a PENDING record at all and performs its sender
debit before any event-store write, writing only already-COMPLETED records
after the saga finished. -/
theorem pending_write_discipline_amended (st : LedgerState) (key txId now : Nat) :
    (∀ req : DepositRequest,
        beforeOk isEsPendingWrite isSideEffect (deposit st req key txId now).trace = true) ∧
    (∀ (req : TransferRequest) (ig : IGResult) (df : Option Nat),
        beforeOk isEsPendingWrite isSideEffect
          (transfer st req key txId now ig df).trace = true) ∧
    (∀ req : ContributionRequest,
        beforeOk isEsPendingWrite isSideEffect (contribute st req key txId now).trace = true) ∧
    (∀ (req : P2PTransferRequest) (cId : Nat) (esOk : Bool),
        (transfer_p2p st req key txId cId now esOk).trace.any isEsPendingWrite = false ∧
        beforeOk isBaDebitEv isEsWrite (transfer_p2p st req key txId cId now esOk).trace
          = true) := by
  refine ⟨?_, ?_, ?_, ?_⟩
  · intro req
    dsimp only [deposit]
    split
    · split <;> rfl
    · split
      · rfl
      · split <;> rfl
  · intro req ig df
    dsimp only [transfer]
    split
    · split
      · split <;> rfl
      · split
        · rfl
        · split
          · rfl
          · rfl
          · split
            · rfl
            · split <;> rfl
    · rfl
  · intro req
    dsimp only [contribute]
    split
    · split <;> rfl
    · split <;> rfl
  · intro req cId esOk
    dsimp only [transfer_p2p]
    split
    · split <;> exact ⟨rfl, rfl⟩
    · split
      · exact ⟨rfl, rfl⟩
      · split
        · exact ⟨rfl, rfl⟩
        · split
          · exact ⟨rfl, rfl⟩
          · split
            · exact ⟨rfl, rfl⟩
            · split
              · split <;> exact ⟨rfl, rfl⟩
              · split
                · split <;> exact ⟨rfl, rfl⟩
                · exact ⟨rfl, rfl⟩

/-! ### C7: interbank saga ordering -/

/-- C7: in every interbank transfer the funds check precedes the gateway
call, the gateway call precedes the sender debit, and a debit is issued only
when the gateway returned an acceptance. -/
theorem interbank_saga_ordering (st : LedgerState) (req : TransferRequest)
    (key txId now : Nat) (ig : IGResult) (df : Option Nat) :
    beforeOk isBaCheckEv isIgSendEv (transfer st req key txId now ig df).trace = true ∧
    beforeOk isIgSendEv isBaDebitEv (transfer st req key txId now ig df).trace = true ∧
    ((transfer st req key txId now ig df).trace.any isBaDebitEv = true →
      ∃ r, ig = .accepted r) := by
  dsimp only [transfer]
  split
  · split
    · split <;> exact ⟨rfl, rfl, fun h => by simp [isBaDebitEv] at h⟩
    · split
      · exact ⟨rfl, rfl, fun h => by simp [isBaDebitEv] at h⟩
      · split
        · exact ⟨rfl, rfl, fun h => by simp [isBaDebitEv] at h⟩
        · exact ⟨rfl, rfl, fun h => by simp [isBaDebitEv] at h⟩
        · rename_i r
          split
          · exact ⟨rfl, rfl, fun _ => ⟨r, rfl⟩⟩
          · split <;> exact ⟨rfl, rfl, fun _ => ⟨r, rfl⟩⟩
  · exact ⟨rfl, rfl, fun h => by simp [isBaDebitEv] at h⟩

/-- Witness for `interbank_saga_ordering`: the concrete accepted-then-
debit-failed run contains a debit, and the theorem yields the acceptance. -/
theorem interbank_saga_ordering_witness :
    ∃ r, (IGResult.accepted 9 : IGResult) = .accepted r :=
  (interbank_saga_ordering S0
      { user_id := 1, amount := 4000, to_bank := "HAPPY_MONEY",
        destination_phone_number := "999111222" }
      88 800 4 (.accepted 9) (some 400)).2.2 (by decide)

/-- The invariant survives a failure path: the new PENDING row (fresh id) is
only status-updated, never bound, and old bindings still resolve. -/
theorem keysMatchedT_fail (T : List Tx) (K : List (Nat × Nat)) (tx : Tx)
    (j : Nat) (s : String) (n : Nat)
    (hm : KeysMatchedT T K) (hj : tx.id = j)
    (hfresh : T.find? (fun x => x.id == j) = none) :
    KeysMatchedT (setStatus (T ++ [tx]) j s n) K := by
  subst hj
  intro p hp
  obtain ⟨t, ht, hs'⟩ := hm p hp
  have hne : p.2 ≠ tx.id := by
    intro hc
    rw [hc, hfresh] at ht
    cases ht
  exact ⟨t, findTx_preserved T tx p.2 tx.id s n t ht hne, hs'⟩

/-- The invariant survives a success path that appends a fresh PENDING row,
updates it to a non-PENDING status and binds the idempotency key to it. -/
theorem keysMatchedT_success (T : List Tx) (K : List (Nat × Nat)) (tx : Tx)
    (j : Nat) (s : String) (n key : Nat)
    (hm : KeysMatchedT T K) (hj : tx.id = j)
    (hfresh : T.find? (fun x => x.id == j) = none)
    (hs : s ≠ "PENDING") :
    KeysMatchedT (setStatus (T ++ [tx]) j s n) (K ++ [(key, j)]) := by
  subst hj
  intro p hp
  rcases List.mem_append.mp hp with hold | hnew
  · obtain ⟨t, ht, hs'⟩ := hm p hold
    have hne : p.2 ≠ tx.id := by
      intro hc
      rw [hc, hfresh] at ht
      cases ht
    exact ⟨t, findTx_preserved T tx p.2 tx.id s n t ht hne, hs'⟩
  · have hp' : p = (key, tx.id) := by simpa using hnew
    subst hp'
    exact ⟨{ tx with status := s, updated_at := n },
      findTx_setStatus_append_fresh T tx s n hfresh, by simpa using hs⟩

/-- The invariant survives the P2P success path, which appends a row that is
already COMPLETED and binds the key to it. -/
theorem keysMatchedT_append (T : List Tx) (K : List (Nat × Nat)) (txd : Tx)
    (j key : Nat)
    (hm : KeysMatchedT T K) (hj : txd.id = j)
    (hfresh : T.find? (fun x => x.id == j) = none)
    (hst : txd.status ≠ "PENDING") :
    KeysMatchedT (T ++ [txd]) (K ++ [(key, j)]) := by
  subst hj
  intro p hp
  rcases List.mem_append.mp hp with hold | hnew
  · obtain ⟨t, ht, hs'⟩ := hm p hold
    exact ⟨t, findTx_append_old T txd p.2 t ht, hs'⟩
  · have hp' : p = (key, txd.id) := by simpa using hnew
    subst hp'
    exact ⟨txd, findTx_append_fresh T txd hfresh, hst⟩

/-- C8 amended: every ledger operation preserves the referential integrity of
the idempotency table — each binding points at an existing transaction whose
status, once the operation has returned, is a terminal non-PENDING one.  (At
the instant the binding is inserted the stored status may still be PENDING,
per the counterexample: the COMPLETED update is issued right after the
binding.) -/
theorem idempotency_binding_amended (st : LedgerState) (hm : KeysMatched st) :
    (∀ (req : DepositRequest) (key txId now : Nat),
        get_transaction_by_id st txId = none →
        KeysMatched (deposit st req key txId now).state) ∧
    (∀ (req : TransferRequest) (key txId now : Nat) (ig : IGResult) (df : Option Nat),
        get_transaction_by_id st txId = none →
        KeysMatched (transfer st req key txId now ig df).state) ∧
    (∀ (req : ContributionRequest) (key txId now : Nat),
        get_transaction_by_id st txId = none →
        KeysMatched (contribute st req key txId now).state) ∧
    (∀ (req : P2PTransferRequest) (key dId cId now : Nat) (esOk : Bool),
        get_transaction_by_id st dId = none →
        KeysMatched (transfer_p2p st req key dId cId now esOk).state) := by
  refine ⟨?_, ?_, ?_, ?_⟩
  · intro req key txId now hfresh
    dsimp only [deposit]
    split
    · split
      · exact hm
      · exact hm
    · split
      · exact keysMatchedT_fail _ _ _ _ _ _ hm rfl hfresh
      · split
        · exact keysMatchedT_success _ _ _ _ _ _ _ hm rfl hfresh (by decide)
        · exact keysMatchedT_success _ _ _ _ _ _ _ hm rfl hfresh (by decide)
  · intro req key txId now ig df hfresh
    dsimp only [transfer]
    split
    · split
      · split
        · exact hm
        · exact hm
      · split
        · exact keysMatchedT_fail _ _ _ _ _ _ hm rfl hfresh
        · split
          · exact keysMatchedT_fail _ _ _ _ _ _ hm rfl hfresh
          · exact keysMatchedT_fail _ _ _ _ _ _ hm rfl hfresh
          · split
            · exact keysMatchedT_fail _ _ _ _ _ _ hm rfl hfresh
            · split
              · exact keysMatchedT_success _ _ _ _ _ _ _ hm rfl hfresh (by decide)
              · exact keysMatchedT_success _ _ _ _ _ _ _ hm rfl hfresh (by decide)
    · exact hm
  · intro req key txId now hfresh
    dsimp only [contribute]
    split
    · split
      · exact hm
      · exact hm
    · split
      · exact keysMatchedT_success _ _ _ _ _ _ _ hm rfl hfresh (by decide)
      · exact keysMatchedT_success _ _ _ _ _ _ _ hm rfl hfresh (by decide)
  · intro req key dId cId now esOk hfresh
    dsimp only [transfer_p2p]
    split
    · split
      · exact hm
      · exact hm
    · split
      · exact hm
      · split
        · exact hm
        · split
          · exact hm
          · split
            · exact hm
            · split
              · split
                · exact hm
                · exact hm
              · split
                · split
                  · exact keysMatchedT_append _ _ _ _ _ hm rfl hfresh (by simp)
                  · exact keysMatchedT_append _ _ _ _ _ hm rfl hfresh (by simp)
                · exact hm

/-- Witness for `idempotency_binding_amended`: the invariant holds after the
concrete successful deposit from the empty-table state. -/
theorem idempotency_binding_amended_witness :
    KeysMatched depositRun.state :=
  (idempotency_binding_amended S0 (by intro p hp; simp [S0] at hp)).1
    { user_id := 1, amount := 500 } 77 1000 1 (by decide)

/-! ### C1: idempotent retries -/

/-- After a deposit that answered 2xx, the returned record's id is bound to
the idempotency key and resolves to that very record. -/
theorem deposit_ok_replay (st : LedgerState) (req : DepositRequest)
    (key txId now : Nat) (tx : Tx)
    (h : (deposit st req key txId now).resp = .ok tx) :
    check_idempotency (deposit st req key txId now).state key = some tx.id ∧
    get_transaction_by_id (deposit st req key txId now).state tx.id = some tx := by
  dsimp only [deposit] at h ⊢
  split at h
  next e heq =>
    split at h
    next t heq2 =>
      simp only [heq, heq2]
      cases h
      have hte : tx.id = e := by
        have := List.find?_some heq2
        simpa using this
      rw [hte]
      exact ⟨rfl, heq2⟩
    next heq2 =>
      simp at h
  next heq =>
    split at h
    next c heq2 =>
      simp at h
    next bal2 heq2 =>
      split at h
      next txf heq3 =>
        simp only [heq, heq2, heq3]
        cases h
        have hid : tx.id = txId := by
          have := List.find?_some heq3
          simpa using this
        constructor
        · rw [hid]
          simp only [check_idempotency] at heq ⊢
          rw [List.find?_append]
          have hnone : List.find? (fun p => p.1 == key) st.idempotency_keys = none := by
            cases hfk : List.find? (fun p => p.1 == key) st.idempotency_keys with
            | none => rfl
            | some q => rw [hfk] at heq; simp at heq
          rw [hnone]
          simp
        · rw [hid]
          exact heq3
      next heq3 =>
        simp at h

/-- After an interbank transfer that answered 2xx, the destination bank was
supported and the returned record's id is bound to the idempotency key and
resolves to that very record. -/
theorem transfer_ok_replay (st : LedgerState) (req : TransferRequest)
    (key txId now : Nat) (ig : IGResult) (df : Option Nat) (tx : Tx)
    (h : (transfer st req key txId now ig df).resp = .ok tx) :
    strUpper req.to_bank = "HAPPY_MONEY" ∧
    check_idempotency (transfer st req key txId now ig df).state key = some tx.id ∧
    get_transaction_by_id (transfer st req key txId now ig df).state tx.id = some tx := by
  dsimp only [transfer] at h ⊢
  split at h
  next hbank =>
    simp only [if_pos hbank]
    refine ⟨hbank, ?_⟩
    split at h
    next e heq =>
      split at h
      next t heq2 =>
        simp only [heq, heq2]
        cases h
        have hte : tx.id = e := by
          have := List.find?_some heq2
          simpa using this
        rw [hte]
        exact ⟨rfl, heq2⟩
      next heq2 =>
        simp at h
    next heq =>
      split at h
      next c heq2 =>
        simp at h
      next u heq2 =>
        split at h
        next heq3 =>
          simp at h
        next c heq3 =>
          simp at h
        next r heq3 =>
          split at h
          next c heq4 =>
            simp at h
          next bal2 heq4 =>
            split at h
            next txf heq5 =>
              simp only [heq, heq2, heq4, heq5]
              cases h
              have hid : tx.id = txId := by
                have := List.find?_some heq5
                simpa using this
              constructor
              · rw [hid]
                simp only [check_idempotency] at heq ⊢
                rw [List.find?_append]
                have hnone : List.find? (fun p => p.1 == key) st.idempotency_keys = none := by
                  cases hfk : List.find? (fun p => p.1 == key) st.idempotency_keys with
                  | none => rfl
                  | some q => rw [hfk] at heq; simp at heq
                rw [hnone]
                simp
              · rw [hid]
                exact heq5
            next heq5 =>
              simp at h
  next hbank =>
    simp at h

/-- After a contribution that answered 2xx, the returned record's id is bound
to the idempotency key and resolves to that very record. -/
theorem contribute_ok_replay (st : LedgerState) (req : ContributionRequest)
    (key txId now : Nat) (tx : Tx)
    (h : (contribute st req key txId now).resp = .ok tx) :
    check_idempotency (contribute st req key txId now).state key = some tx.id ∧
    get_transaction_by_id (contribute st req key txId now).state tx.id = some tx := by
  dsimp only [contribute] at h ⊢
  split at h
  next e heq =>
    split at h
    next t heq2 =>
      simp only [heq, heq2]
      cases h
      have hte : tx.id = e := by
        have := List.find?_some heq2
        simpa using this
      rw [hte]
      exact ⟨rfl, heq2⟩
    next heq2 =>
      simp at h
  next heq =>
    split at h
    next txf heq3 =>
      simp only [heq, heq3]
      cases h
      have hid : tx.id = txId := by
        have := List.find?_some heq3
        simpa using this
      constructor
      · rw [hid]
        simp only [check_idempotency] at heq ⊢
        rw [List.find?_append]
        have hnone : List.find? (fun p => p.1 == key) st.idempotency_keys = none := by
          cases hfk : List.find? (fun p => p.1 == key) st.idempotency_keys with
          | none => rfl
          | some q => rw [hfk] at heq; simp at heq
        rw [hnone]
        simp
      · rw [hid]
        exact heq3
    next heq3 =>
      simp at h

/-- After a P2P transfer that answered 2xx, the returned record's id is bound
to the idempotency key and resolves to that very record. -/
theorem transfer_p2p_ok_replay (st : LedgerState) (req : P2PTransferRequest)
    (key d c now : Nat) (es : Bool) (tx : Tx)
    (h : (transfer_p2p st req key d c now es).resp = .ok tx) :
    check_idempotency (transfer_p2p st req key d c now es).state key = some tx.id ∧
    get_transaction_by_id (transfer_p2p st req key d c now es).state tx.id = some tx := by
  dsimp only [transfer_p2p] at h ⊢
  split at h
  next e heq =>
    split at h
    next t heq2 =>
      simp only [heq, heq2]
      cases h
      have hte : tx.id = e := by
        have := List.find?_some heq2
        simpa using this
      rw [hte]
      exact ⟨rfl, heq2⟩
    next heq2 =>
      simp at h
  next heq =>
    split at h
    next heq2 =>
      simp at h
    next rid heq2 =>
      split at h
      next hrid =>
        simp at h
      next hrid =>
        split at h
        next cc heq3 =>
          simp at h
        next u heq3 =>
          split at h
          next cc heq4 =>
            simp at h
          next bal1 heq4 =>
            split at h
            next cc heq5 =>
              split at h
              next balr heq6 =>
                simp at h
              next cc2 heq6 =>
                simp at h
            next bal2 heq5 =>
              split at h
              next hes =>
                split at h
                next txf heq6 =>
                  simp only [heq, heq2, hrid, heq3, heq4, heq5, hes, heq6, if_neg hrid,
                    if_true, if_false]
                  cases h
                  have hid : tx.id = d := by
                    have := List.find?_some heq6
                    simpa using this
                  constructor
                  · rw [hid]
                    simp only [check_idempotency] at heq ⊢
                    rw [List.find?_append]
                    have hnone : List.find? (fun p => p.1 == key) st.idempotency_keys
                        = none := by
                      cases hfk : List.find? (fun p => p.1 == key) st.idempotency_keys with
                      | none => rfl
                      | some q => rw [hfk] at heq; simp at heq
                    rw [hnone]
                    simp
                  · rw [hid]
                    exact heq6
                next heq6 =>
                  simp at h
              next hes =>
                simp at h

/-- C1: once an operation has completed successfully under an idempotency
key, any retry of that operation with the same key — with fresh transaction
ids, a later timestamp, and arbitrary gateway/failure behaviour — returns the
same transaction record, leaves the system state untouched, and issues no
external call at all (empty trace), so the balance side effect is applied
exactly once no matter how many times the client retries. -/
theorem idempotent_retry_all_ops :
    (∀ (st : LedgerState) (req : DepositRequest) (key txId now txId2 now2 : Nat) (tx : Tx),
       (deposit st req key txId now).resp = .ok tx →
       deposit (deposit st req key txId now).state req key txId2 now2
         = ⟨.ok tx, (deposit st req key txId now).state, []⟩) ∧
    (∀ (st : LedgerState) (req : TransferRequest) (key txId now txId2 now2 : Nat)
       (ig ig2 : IGResult) (df df2 : Option Nat) (tx : Tx),
       (transfer st req key txId now ig df).resp = .ok tx →
       transfer (transfer st req key txId now ig df).state req key txId2 now2 ig2 df2
         = ⟨.ok tx, (transfer st req key txId now ig df).state, []⟩) ∧
    (∀ (st : LedgerState) (req : ContributionRequest) (key txId now txId2 now2 : Nat) (tx : Tx),
       (contribute st req key txId now).resp = .ok tx →
       contribute (contribute st req key txId now).state req key txId2 now2
         = ⟨.ok tx, (contribute st req key txId now).state, []⟩) ∧
    (∀ (st : LedgerState) (req : P2PTransferRequest) (key d c now d2 c2 now2 : Nat)
       (es es2 : Bool) (tx : Tx),
       (transfer_p2p st req key d c now es).resp = .ok tx →
       transfer_p2p (transfer_p2p st req key d c now es).state req key d2 c2 now2 es2
         = ⟨.ok tx, (transfer_p2p st req key d c now es).state, []⟩) := by
  refine ⟨?_, ?_, ?_, ?_⟩
  · intro st req key txId now txId2 now2 tx h
    obtain ⟨h1, h2⟩ := deposit_ok_replay st req key txId now tx h
    generalize hG : (deposit st req key txId now).state = st1 at h1 h2 ⊢
    dsimp only [deposit]
    simp only [h1, h2]
  · intro st req key txId now txId2 now2 ig ig2 df df2 tx h
    obtain ⟨h0, h1, h2⟩ := transfer_ok_replay st req key txId now ig df tx h
    generalize hG : (transfer st req key txId now ig df).state = st1 at h1 h2 ⊢
    dsimp only [transfer]
    rw [if_pos h0]
    simp only [h1, h2]
  · intro st req key txId now txId2 now2 tx h
    obtain ⟨h1, h2⟩ := contribute_ok_replay st req key txId now tx h
    generalize hG : (contribute st req key txId now).state = st1 at h1 h2 ⊢
    dsimp only [contribute]
    simp only [h1, h2]
  · intro st req key d c now d2 c2 now2 es es2 tx h
    obtain ⟨h1, h2⟩ := transfer_p2p_ok_replay st req key d c now es tx h
    generalize hG : (transfer_p2p st req key d c now es).state = st1 at h1 h2 ⊢
    dsimp only [transfer_p2p]
    simp only [h1, h2]

/-- Witness for `idempotent_retry_all_ops`: retrying the concrete successful
deposit and the concrete successful P2P transfer returns the original record
unchanged with an empty trace. -/
theorem idempotent_retry_all_ops_witness :
    (deposit depositRun.state { user_id := 1, amount := 500 } 77 1001 2
       = ⟨depositRun.resp, depositRun.state, []⟩) ∧
    (transfer_p2p p2pRun.state
        { user_id := 1, destination_phone_number := "999111222", amount := 7550 }
        66 702 703 6 false
       = ⟨p2pRun.resp, p2pRun.state, []⟩) := by
  constructor
  · have h := idempotent_retry_all_ops.1 S0 { user_id := 1, amount := 500 }
      77 1000 1 1001 2
      { id := 1000, user_id := 1, source_wallet_type := "EXTERNAL",
        source_wallet_id := "N/A", destination_wallet_type := "BDI",
        destination_wallet_id := "1", type := "DEPOSIT", amount := 500,
        currency := "PEN", status := "COMPLETED", created_at := 1, updated_at := 1,
        metadata := "description: Deposito en BDI" }
      (by decide)
    have hresp : depositRun.resp = .ok
      { id := 1000, user_id := 1, source_wallet_type := "EXTERNAL",
        source_wallet_id := "N/A", destination_wallet_type := "BDI",
        destination_wallet_id := "1", type := "DEPOSIT", amount := 500,
        currency := "PEN", status := "COMPLETED", created_at := 1, updated_at := 1,
        metadata := "description: Deposito en BDI" } := by decide
    rw [hresp]
    exact h
  · have h := idempotent_retry_all_ops.2.2.2 S0
      { user_id := 1, destination_phone_number := "999111222", amount := 7550 }
      66 700 701 5 702 703 6 true false
      { id := 700, user_id := 1, source_wallet_type := "BDI",
        source_wallet_id := "1", destination_wallet_type := "BDI",
        destination_wallet_id := "2", type := "P2P_SENT", amount := 7550,
        currency := "PEN", status := "COMPLETED", created_at := 5, updated_at := 5,
        metadata := "" }
      (by decide)
    have hresp : p2pRun.resp = .ok
      { id := 700, user_id := 1, source_wallet_type := "BDI",
        source_wallet_id := "1", destination_wallet_type := "BDI",
        destination_wallet_id := "2", type := "P2P_SENT", amount := 7550,
        currency := "PEN", status := "COMPLETED", created_at := 5, updated_at := 5,
        metadata := "" } := by decide
    rw [hresp]
    exact h

end PixelMoney
